import Mathlib

/- Verification of the TelecomAIAssistent routing core and agent pipelines.

   Shallow embedding of the Python sources:
     orchestration/graph.py, orchestration/state.py,
     agents/billing_agents.py, agents/network_agents.py,
     agents/service_agents.py, agents/knowledge_agents.py,
     ui/streamlit_app.py.

   External collaborators (the SQLite engine and the OpenAI / CrewAI /
   LangChain / LlamaIndex client libraries) are modelled as oracle records
   whose calls return `Except Exc` values: every external call either
   returns a value or raises, exactly as the spec's external-interface
   section stipulates.  All strings in the sources are ASCII apart from a
   few fixed literals, so Python `str.lower` is `Char.toLower` mapped over
   the characters. -/

/-- A Python exception, reduced to the two pieces the code ever inspects:
`type(e).__name__` and `str(e)`. -/
structure Exc where
  typeName : String
  message : String
deriving DecidableEq, Repr

/-- Python `w in q` substring containment test on strings. -/
def strIn (w q : String) : Bool :=
  (q.data.tails).any (fun t => w.data.isPrefixOf t)

/-- Python `str.lower` (ASCII data only in this code base). -/
def pyLower (s : String) : String := String.mk (s.data.map Char.toLower)

/-- Python truthiness of an optional string: `None` and `""` are falsy. -/
def truthyOpt : Option String → Bool
  | none => false
  | some s => !(s == "")

/-- Python `a or b` on optional strings: `None` and `""` fall through. -/
def orTruthy (a b : Option String) : Option String :=
  if truthyOpt a then a else b

/-- Python `dict.get` on a small string-keyed mapping in insertion order. -/
def pyGet (m : List (String × String)) (k : String) : Option String :=
  (m.find? (fun kv => kv.1 == k)).map (fun kv => kv.2)

/-- orchestration/state.py: `TelecomAssistantState`.  Dict-valued fields
are modelled as association lists kept in insertion order. -/
structure TelecomAssistantState where
  query : String
  customer_info : List (String × String)
  classification : String
  intermediate_responses : List (String × String)
  final_response : String
  chat_history : List (String × String)
deriving DecidableEq, Repr

/-- graph.py line 20: the billing keyword set. -/
def billing_keywords : List String :=
  ["bill", "charge", "payment", "account", "due date", "invoice"]

/-- graph.py line 22: the network keyword set. -/
def network_keywords : List String :=
  ["network", "signal", "connection", "call", "data", "slow", "internet", "5g", "4g"]

/-- graph.py line 24: the plan keyword set. -/
def plan_keywords : List String :=
  ["plan", "recommend", "upgrade", "downgrade", "best", "family", "pack"]

/-- graph.py line 26: the how-to keyword set. -/
def howto_keywords : List String :=
  ["how", "what", "configure", "setup", "apn", "volte", "roaming", "esim"]

/-- graph.py `classify_query`: the `cls = "fallback"` initialisation
followed by the `if`/`elif` chain is rendered as a nested conditional
(the variable is assigned exactly once along every path). -/
def classify_query (state : TelecomAssistantState) : TelecomAssistantState :=
  let q := pyLower state.query
  let cls :=
    if billing_keywords.any (fun w => strIn w q) then "billing_account"
    else if network_keywords.any (fun w => strIn w q) then "network_troubleshooting"
    else if plan_keywords.any (fun w => strIn w q) then "service_recommendation"
    else if howto_keywords.any (fun w => strIn w q) then "knowledge_retrieval"
    else "fallback"
  { state with classification := cls }

/-- graph.py `route_query`.  The embedded state always carries a
`classification` field, so `state.get("classification", "fallback")` is a
plain field read. -/
def route_query (state : TelecomAssistantState) : String :=
  let cls := state.classification
  if cls = "billing_account" then "crew_ai_node"
  else if cls = "network_troubleshooting" then "autogen_node"
  else if cls = "service_recommendation" then "langchain_node"
  else if cls = "knowledge_retrieval" then "llamaindex_node"
  else "fallback_handler"

/-- graph.py `fallback_handler`, fixed help text (lines 124-131). -/
def fallback_text : String :=
  "I’m not sure how to handle that.\n\n" ++
  "You can ask about:\n" ++
  "- Billing & account (charges, due dates, invoices)\n" ++
  "- Network issues (slow internet, no signal, call drops)\n" ++
  "- Plan recommendations (upgrade/downgrade, family plans)\n" ++
  "- Technical how-to (APN settings, VoLTE, roaming, eSIM)"

/-- graph.py `fallback_handler`. -/
def fallback_handler (state : TelecomAssistantState) : TelecomAssistantState :=
  { state with intermediate_responses := [("fallback", fallback_text)] }

/-- graph.py `formulate_response`: `next(iter(responses.values()))` yields
the first-inserted value of the dict, i.e. the head of the assoc list. -/
def formulate_response (state : TelecomAssistantState) : TelecomAssistantState :=
  let final :=
    match state.intermediate_responses with
    | [] => "Something went wrong while generating a response."
    | (_, v) :: _ => v
  { state with final_response := final }

/-- The five intent labels `classify_query` can produce (spec section 3). -/
def intent_labels : List String :=
  ["billing_account", "network_troubleshooting", "service_recommendation",
   "knowledge_retrieval", "fallback"]

/-- The five node names `route_query` can produce (graph.py lines 35-43). -/
def handler_names : List String :=
  ["crew_ai_node", "autogen_node", "langchain_node", "llamaindex_node",
   "fallback_handler"]

/-- Spec section 4.1 and 9 rendered literally (for the refinement half of
claim C1): an explicit priority list of (label, keyword set) pairs. -/
def intent_priority : List (String × List String) :=
  [("billing_account", billing_keywords),
   ("network_troubleshooting", network_keywords),
   ("service_recommendation", plan_keywords),
   ("knowledge_retrieval", howto_keywords)]

/-- Spec section 4.1 rendered literally: evaluate the priority list in
order, first set with a matching keyword wins, otherwise `fallback`. -/
def firstLabel (q : String) : List (String × List String) → String
  | [] => "fallback"
  | (lab, ws) :: rest =>
      if ws.any (fun w => strIn w (pyLower q)) then lab else firstLabel q rest

/-- Spec section 4.1 rendered literally: the classifier the spec text
describes, to be compared with the source translation `classify_query`. -/
def spec_classify (q : String) : String := firstLabel q intent_priority

/-- The fresh per-request state the presentation layer builds
(ui/streamlit_app.py lines 65-72). -/
def initState (query : String) (email : Option String)
    (history : List (String × String)) : TelecomAssistantState :=
  { query := query
    customer_info := [("email", email.getD "")] |>.filter (fun kv => kv.2 ≠ "")
    classification := ""
    intermediate_responses := []
    final_response := ""
    chat_history := history }

/-- The four backend agent entry points the graph nodes call
(graph.py imports, lines 7-10).  Each is an external pipeline that either
returns text or raises; the detailed translations of the concrete agents
appear further below and can be plugged in for these fields. -/
structure Agents where
  process_billing_query : Option String → String → Except Exc String
  process_network_query : String → Option String → Except Exc String
  recommend_personalized_plan : Option String → String → Except Exc String
  answer_knowledge_query : String → Option String → Except Exc String

/-- graph.py `crew_ai_node`: billing queries, `try`/`except` around the
agent call. -/
def crew_ai_node (ag : Agents) (st : TelecomAssistantState) :
    Except Exc TelecomAssistantState :=
  let query := st.query
  let customer_identifier :=
    orTruthy (pyGet st.customer_info "email") (pyGet st.customer_info "id")
  let answer :=
    match ag.process_billing_query customer_identifier query with
    | Except.ok a => a
    | Except.error e =>
        "Sorry, I ran into a problem while analyzing your billing question.\n\n" ++
        "Technical details: " ++ e.typeName ++ ": " ++ e.message
  Except.ok { st with intermediate_responses := [("crew_ai", answer)] }

/-- graph.py `autogen_node`: network queries, `try`/`except` around the
agent call. -/
def autogen_node (ag : Agents) (st : TelecomAssistantState) :
    Except Exc TelecomAssistantState :=
  let query := st.query
  let customer_identifier :=
    orTruthy (pyGet st.customer_info "email") (pyGet st.customer_info "id")
  let answer :=
    match ag.process_network_query query customer_identifier with
    | Except.ok a => a
    | Except.error e =>
        "Sorry, I ran into a problem while diagnosing your network issue.\n\n" ++
        "Technical details: " ++ e.typeName ++ ": " ++ e.message
  Except.ok { st with intermediate_responses := [("autogen", answer)] }

/-- graph.py `langchain_node`: plan recommendations, `try`/`except` around
the agent call. -/
def langchain_node (ag : Agents) (st : TelecomAssistantState) :
    Except Exc TelecomAssistantState :=
  let query := st.query
  let customer_email := pyGet st.customer_info "email"
  let answer :=
    match ag.recommend_personalized_plan customer_email query with
    | Except.ok a => a
    | Except.error e =>
        "Sorry, I had trouble generating a plan recommendation.\n\n" ++
        "Technical details: " ++ e.typeName ++ ": " ++ e.message
  Except.ok { st with intermediate_responses := [("langchain", answer)] }

/-- graph.py `llamaindex_node`: knowledge queries.  NOTE: unlike the three
nodes above, the source has no `try`/`except` here, so an exception from
`answer_knowledge_query` propagates out of the node. -/
def llamaindex_node (ag : Agents) (st : TelecomAssistantState) :
    Except Exc TelecomAssistantState := do
  let query := st.query
  let customer_email := pyGet st.customer_info "email"
  let answer ← ag.answer_knowledge_query query customer_email
  Except.ok { st with intermediate_responses := [("llamaindex", answer)] }

/-- graph.py `create_graph` conditional-edge table (lines 164-174): the
node selected by `route_query` is the one that runs. -/
def dispatch (ag : Agents) (node : String) (st : TelecomAssistantState) :
    Except Exc TelecomAssistantState :=
  if node = "crew_ai_node" then crew_ai_node ag st
  else if node = "autogen_node" then autogen_node ag st
  else if node = "langchain_node" then langchain_node ag st
  else if node = "llamaindex_node" then llamaindex_node ag st
  else Except.ok (fallback_handler st)

/-- graph.py `create_graph` wiring: entry point `classify_query`, then the
conditional edge to exactly one backend node, then `formulate_response`,
then END. -/
def run_graph (ag : Agents) (st : TelecomAssistantState) :
    Except Exc TelecomAssistantState := do
  let st₁ := classify_query st
  let st₂ ← dispatch ag (route_query st₁) st₁
  Except.ok (formulate_response st₂)

/-- ui/streamlit_app.py session state: the keys `init_session` creates and
the views read or write. -/
structure SessionState where
  authenticated : Bool
  user_type : Option String
  email : Option String
  chat_history : List (String × String)
deriving DecidableEq, Repr

/-- ui/streamlit_app.py `init_session`: the fresh session values. -/
def init_session : SessionState :=
  { authenticated := false, user_type := none, email := none, chat_history := [] }

/-- ui/streamlit_app.py lines 65-72: the fresh per-request state built from
the session and the query (`st.session_state.email` may be `None`, which
behaves like an absent/empty entry under `dict.get` plus truthiness). -/
def ui_request_state (s : SessionState) (query : String) :
    TelecomAssistantState :=
  { query := query
    customer_info := [("email", (s.email).getD "")]
    classification := ""
    intermediate_responses := []
    final_response := ""
    chat_history := s.chat_history }

/-- ui/streamlit_app.py `run_query_through_graph` (graph already loaded):
invokes the graph on the fresh request state and catches any exception as a
marker-prefixed text. -/
def run_query_through_graph (ag : Agents) (s : SessionState) (query : String) :
    String :=
  match run_graph ag (ui_request_state s query) with
  | Except.ok result => result.final_response
  | Except.error e =>
      "❌ Error while processing your request (possible DB/agent issue): " ++
      e.message

/-- ui/streamlit_app.py `sidebar_login`, Login button: requires a non-empty
email containing "@"; on failure the session is unchanged. -/
def sidebar_login_submit (s : SessionState) (email user_type : String) :
    SessionState :=
  if (!(email == "")) && strIn "@" email then
    { s with authenticated := true, user_type := some user_type,
             email := some email }
  else s

/-- ui/streamlit_app.py `sidebar_login`, Logout button (lines 115-120). -/
def sidebar_logout (_s : SessionState) : SessionState :=
  { authenticated := false, user_type := none, email := none,
    chat_history := [] }

/-- ui/streamlit_app.py `customer_view` chat tab: append the user message,
run the graph on it, append the assistant response. -/
def chat_turn (ag : Agents) (s : SessionState) (prompt : String) :
    SessionState :=
  let s₁ := { s with chat_history := s.chat_history ++ [("user", prompt)] }
  let response := run_query_through_graph ag s₁ prompt
  { s₁ with chat_history := s₁.chat_history ++ [("assistant", response)] }

/-- Python `a or "default"` on an optional string. -/
def pyOrStr (a : Option String) (d : String) : String :=
  match a with
  | none => d
  | some s => if s = "" then d else s

/-- The LlamaIndex surface that `answer_knowledge_query` touches
(agents/knowledge_agents.py).  `getIndex` stands for `_get_index()`
(global index construction, including `_init_llama_settings`, which raises
when the API key is missing, and the FAISS/default fallback); the spec
treats the vector-index wrapper as an opaque external collaborator.
`asQueryEngine` stands for `index.as_query_engine(similarity_top_k=k)` and
`queryCall` for `query_engine.query(...)` followed by `str(...)`.  Index
and engine handles are opaque numbers. -/
structure KnowExt where
  getIndex : Except Exc Nat
  asQueryEngine : Nat → Nat → Except Exc Nat
  queryCall : Nat → String → Except Exc String

/-- agents/knowledge_agents.py lines 158-165: the composed question. -/
def know_full_question (query : String) (customer_email : Option String) :
    String :=
  "You are a Telecom Technical Support Assistant. Use ONLY the provided " ++
  "documentation and retrieved context to answer precisely.\n\n" ++
  "Customer: " ++ pyOrStr customer_email "unknown" ++ "\n" ++
  "Question: " ++ query ++ "\n\n" ++
  "If the exact steps are not clearly in the docs, say that and provide a " ++
  "generic best-practice answer, noting that details may vary by " ++
  "device/operator."

/-- agents/knowledge_agents.py `answer_knowledge_query`: the first `try`
covers `_get_index()`, the second covers `query_engine.query(...)`;
`index.as_query_engine(similarity_top_k=3)` sits between them and is NOT
covered by either. -/
def answer_knowledge_queryE (k : KnowExt) (query : String)
    (customer_email : Option String) : Except Exc String :=
  match k.getIndex with
  | Except.error e =>
      Except.ok ("Knowledge assistant is not configured correctly.\n\n" ++
        "Technical details: " ++ e.typeName ++ ": " ++ e.message)
  | Except.ok index => do
      let query_engine ← k.asQueryEngine index 3
      let full_question := know_full_question query customer_email
      match k.queryCall query_engine full_question with
      | Except.ok response => Except.ok response
      | Except.error e =>
          Except.ok
            ("Sorry, I ran into a problem while searching the knowledge " ++
             "base.\n\n" ++
             "Technical details: " ++ e.typeName ++ ": " ++ e.message)

/-- A trivial agent bundle (all pipelines answer with a fixed text); used
to instantiate universally quantified statements at concrete inputs. -/
def trivAgents : Agents :=
  { process_billing_query := fun _ _ => Except.ok "billing answer"
    process_network_query := fun _ _ => Except.ok "network answer"
    recommend_personalized_plan := fun _ _ => Except.ok "plan answer"
    answer_knowledge_query := fun _ _ => Except.ok "knowledge answer" }

/-- An agent bundle whose pipelines all raise; used to instantiate
universally quantified statements at concrete inputs. -/
def raisingAgents : Agents :=
  { process_billing_query := fun _ _ => Except.error ⟨"RuntimeError", "a"⟩
    process_network_query := fun _ _ => Except.error ⟨"ValueError", "b"⟩
    recommend_personalized_plan := fun _ _ => Except.error ⟨"KeyError", "c"⟩
    answer_knowledge_query := fun _ _ => Except.error ⟨"TypeError", "d"⟩ }

/-- A LlamaIndex environment where query-engine construction fails after
the index was built. -/
def badKnowExt : KnowExt :=
  { getIndex := Except.ok 0
    asQueryEngine := fun _ _ =>
      Except.error ⟨"RuntimeError", "query engine construction failed"⟩
    queryCall := fun _ _ => Except.ok "doc answer" }

/-- A LlamaIndex environment where every call succeeds. -/
def goodKnowExt : KnowExt :=
  { getIndex := Except.ok 0
    asQueryEngine := fun _ _ => Except.ok 1
    queryCall := fun _ _ => Except.ok "doc answer" }

/-- The agent bundle whose knowledge pipeline is the detailed translation
`answer_knowledge_queryE` over the given LlamaIndex environment. -/
def knowledgeAgents (k : KnowExt) : Agents :=
  { trivAgents with
    answer_knowledge_query := fun q e => answer_knowledge_queryE k q e }

/-- A copy of the state with the given classification label (used to state
routing properties per label). -/
def withClassification (st : TelecomAssistantState) (c : String) :
    TelecomAssistantState :=
  { st with classification := c }

/-- Python `str(x)` on an optional string: `str(None)` is `"None"`. -/
def pyStrOpt : Option String → String
  | none => "None"
  | some s => s

/-- The OpenAI chat surface agents/network_agents.py touches.
`buildClient` stands for `_build_client()` (which raises when the API key
is missing); `chatCreate model messages temperatureTenths` stands for
`client.chat.completions.create(...)` followed by
`.choices[0].message.content` (the temperature is recorded in tenths so
the embedding stays inside the integers). -/
structure NetExt where
  modelName : String
  buildClient : Except Exc Unit
  chatCreate : String → List (String × String) → Nat → Except Exc String

/-- agents/network_agents.py lines 20-35: diagnostics system prompt. -/
def network_diag_system_prompt : String :=
  "\nYou are a Telecom Network Diagnostics Specialist.\n" ++
  "Analyze network issues including:\n- slow internet\n- no signal\n" ++
  "- call drops\n- VoLTE not working\n- 5G issues\n" ++
  "- SIM/network registration failures\n\nFollow this structure:\n" ++
  "1. Identify possible root causes\n" ++
  "2. Check if it is device-related or network-area-related\n" ++
  "3. Mention what parameters need to be checked (signal strength, APN, " ++
  "VoLTE toggle)\n" ++
  "4. Give a technical summary (NOT customer-facing)\n"

/-- agents/network_agents.py lines 37-41: diagnostics user message. -/
def network_diag_message (query : String) (customer_id : Option String) :
    String :=
  "Customer identifier: " ++ pyStrOpt customer_id ++ "\n" ++
  "Reported issue: " ++ query ++ "\n" ++
  "Generate your technical diagnostic analysis:"

/-- The message list of the diagnostics chat call. -/
def network_diag_messages (query : String) (customer_id : Option String) :
    List (String × String) :=
  [("system", network_diag_system_prompt),
   ("user", network_diag_message query customer_id)]

/-- agents/network_agents.py `_diagnostics_agent`. -/
def _diagnostics_agentE (n : NetExt) (query : String)
    (customer_id : Option String) : Except Exc String := do
  let _ ← n.buildClient
  n.chatCreate n.modelName (network_diag_messages query customer_id) 2

/-- agents/network_agents.py lines 58-68: resolution system prompt. -/
def network_resolution_system_prompt : String :=
  "\nYou are a Telecom Network Resolution Specialist.\n" ++
  "Your job is to convert technical diagnostics into:\n" ++
  "- a clear explanation\n- friendly language\n" ++
  "- 3–5 clear steps the customer can follow\n- a possible root cause\n" ++
  "- optional tips to prevent it in future\n\n" ++
  "Do NOT be too technical. Be helpful.\n"

/-- agents/network_agents.py lines 70-74: resolution user message, whose
body is the diagnostics summary produced by the first call. -/
def network_resolution_message (diagnostics_summary : String) : String :=
  "Here is the technical diagnostics summary from the engineering " ++
  "system:\n\n" ++ diagnostics_summary ++ "\n\n" ++
  "Convert this into a helpful customer-facing explanation with steps."

/-- The message list of the resolution chat call. -/
def network_resolution_messages (diagnostics_summary : String) :
    List (String × String) :=
  [("system", network_resolution_system_prompt),
   ("user", network_resolution_message diagnostics_summary)]

/-- agents/network_agents.py `_resolution_agent`. -/
def _resolution_agentE (n : NetExt) (diagnostics_summary : String) :
    Except Exc String := do
  let _ ← n.buildClient
  n.chatCreate n.modelName (network_resolution_messages diagnostics_summary) 4

/-- agents/network_agents.py `process_network_query`: the two-agent chain
inside one `try`, any exception rendered as the failure text. -/
def process_network_queryE (n : NetExt) (query : String)
    (customer_identifier : Option String) : Except Exc String :=
  match (do
      let diagnostics ← _diagnostics_agentE n query customer_identifier
      let resolution ← _resolution_agentE n diagnostics
      pure ("### Network Diagnostics (Internal)\n" ++ diagnostics ++
        "\n\n" ++ "### Final Explanation\n" ++ resolution) :
      Except Exc String) with
  | Except.ok s => Except.ok s
  | Except.error e =>
      Except.ok ("Network troubleshooting failed: " ++ e.typeName ++ ": " ++
        e.message)

/-- The chat-call inputs `process_network_query` issues, in control-flow
order (a later call is recorded only when everything before it succeeded). -/
def network_call_trace (n : NetExt) (query : String)
    (customer_identifier : Option String) : List (List (String × String)) :=
  match n.buildClient with
  | Except.error _ => []
  | Except.ok _ =>
      match n.chatCreate n.modelName
          (network_diag_messages query customer_identifier) 2 with
      | Except.error _ => [network_diag_messages query customer_identifier]
      | Except.ok d =>
          match n.buildClient with
          | Except.error _ => [network_diag_messages query customer_identifier]
          | Except.ok _ =>
              [network_diag_messages query customer_identifier,
               network_resolution_messages d]

/-- A network environment whose calls all succeed (diagnostic pass answers
by temperature 2-in-tenths, resolution by 4-in-tenths). -/
def okNetExt : NetExt :=
  { modelName := "gpt-4o-mini"
    buildClient := Except.ok ()
    chatCreate := fun _ _ t =>
      Except.ok (if t = 2 then "diag out" else "reso out") }

/-- A database row: an ordered mapping from column name to the textual
rendering of the cell (SQLite cells are opaque to the claims; integers and
dates are carried as their text). -/
abbrev Row := List (String × String)

/-- Python `row[k]` under the spec's assumed-schema reading (section 6:
column names are assumed, not enforced). -/
def rowGet (r : Row) (k : String) : String := (pyGet r k).getD ""

/-- Python `repr` of a cell as interpolated by `!r` (quote-wrapping). -/
def pyReprStr (v : String) : String := "\x27" ++ v ++ "\x27"

/-- Truthiness of a rendered SQLite cell: empty text and the integer `0`
are falsy. -/
def cellTruthy (v : String) : Bool := !(v == "") && !(v == "0")

/-- The data-access and CrewAI surface agents/billing_agents.py touches.
`getTables` stands for `utils.database.get_tables()` and `runQuery` for
`utils.database.run_query(sql, params)` (the raw SQL helpers are external
collaborators per the spec); `buildLlm` for `_build_llm()` (raises when
the API key is missing) and `kickoff` for `crew.kickoff(...)` plus
`str(...)`. -/
structure BillExt where
  dbUri : String
  getTables : Except Exc (List String)
  runQuery : String → List (String × String) → Except Exc (List Row)
  buildLlm : Except Exc Unit
  kickoff : String → String → String → Except Exc String

/-- agents/billing_agents.py `_format_rows` (every call site passes the
default `max_rows = 5`). -/
def _format_rows (rows : List Row) (max_rows : Nat) : String :=
  if rows.isEmpty then "  (no rows)\n"
  else
    let rows := rows.take max_rows
    let columns := (rows.headD []).map (fun kv => kv.1)
    let header := "  Columns: " ++ String.intercalate ", " columns
    let body := rows.map (fun r =>
      "  - " ++ String.intercalate ", "
        (columns.map (fun col => col ++ "=" ++ pyReprStr (rowGet r col))))
    String.intercalate "\n" (header :: body) ++ "\n"

/-- agents/billing_agents.py line 79: the candidate identifier columns. -/
def candidate_columns : List String :=
  ["customer_id", "customerid", "email", "phone", "msisdn", "account_id"]

/-- The SQL text of the per-table filtered query (line 83). -/
def billing_filter_sql (table col : String) : String :=
  "SELECT * FROM " ++ table ++ " WHERE " ++ col ++ " = :val LIMIT 5"

/-- The SQL text of the per-table unfiltered sample query (line 97). -/
def billing_sample_sql (table : String) : String :=
  "SELECT * FROM " ++ table ++ " LIMIT 5"

/-- agents/billing_agents.py lines 79-92: the candidate-column loop.  A
failing query (`except` → `continue`) and an empty result both move on to
the next candidate; the first candidate whose query returns rows stops the
loop (`break`). -/
def tryColumns (b : BillExt) (table cid : String) :
    List String → Option (String × List Row)
  | [] => none
  | col :: rest =>
      match b.runQuery (billing_filter_sql table col) [("val", cid)] with
      | Except.error _ => tryColumns b table cid rest
      | Except.ok rows =>
          if rows.isEmpty then tryColumns b table cid rest
          else some (col, rows)

/-- agents/billing_agents.py lines 96-101: the unfiltered per-table sample
(with its own `try`/`except`). -/
def billing_sample_lines (b : BillExt) (table : String) : List String :=
  match b.runQuery (billing_sample_sql table) [] with
  | Except.ok sample_rows =>
      ["  Sample rows:", _format_rows sample_rows 5]
  | Except.error e =>
      ["  (Failed to query table " ++ table ++ ": " ++ e.typeName ++ ": " ++
        e.message ++ ")"]

/-- agents/billing_agents.py lines 73-101: the per-table section of the
snapshot: header line, then either the rows of the first matching
candidate column or the unfiltered sample. -/
def billing_table_lines (b : BillExt) (customer_identifier : Option String)
    (table : String) : List String :=
  let filtered :=
    if truthyOpt customer_identifier then
      tryColumns b table (customer_identifier.getD "") candidate_columns
    else none
  ("\nTable: " ++ table) ::
    match filtered with
    | some (col, rows) =>
        ["  Rows for " ++ col ++ " = " ++
          pyReprStr (customer_identifier.getD "") ++ ":",
         _format_rows rows 5]
    | none => billing_sample_lines b table

/-- agents/billing_agents.py `_build_db_snapshot`: inspect tables (caught),
then build every table section; all query errors are absorbed, so the
result is always a text. -/
def _build_db_snapshotE (b : BillExt) (customer_identifier : Option String) :
    Except Exc String :=
  match b.getTables with
  | Except.error e =>
      Except.ok ("(Failed to inspect database tables: " ++ e.typeName ++
        ": " ++ e.message ++ ")")
  | Except.ok tables =>
      if tables.isEmpty then Except.ok "(No tables found in the database.)"
      else
        Except.ok (String.intercalate "\n"
          (["Database URI: " ++ b.dbUri, "Discovered tables:"] ++
            tables.flatMap (billing_table_lines b customer_identifier)))

/-- A query outcome that does not stop the candidate-column loop: it
raised, or it returned no rows. -/
def queryMisses (r : Except Exc (List Row)) : Prop :=
  r = Except.ok [] ∨ ∃ e, r = Except.error e

/-- A billing environment for concrete evaluation: `customer_id` raises,
`customerid` matches nothing, `email` matches one row. -/
def witnessBillExt : BillExt :=
  { dbUri := "sqlite:///data/telecom.db"
    getTables := Except.ok ["customers"]
    runQuery := fun sql _ =>
      if sql = billing_filter_sql "customers" "customer_id" then
        Except.error ⟨"OperationalError", "no such column"⟩
      else if sql = billing_filter_sql "customers" "customerid" then
        Except.ok []
      else if sql = billing_filter_sql "customers" "email" then
        Except.ok [[("customer_id", "C1"), ("email", "a@b.c")]]
      else if sql = billing_sample_sql "customers" then
        Except.ok [[("customer_id", "C1"), ("email", "a@b.c")]]
      else Except.ok []
    buildLlm := Except.ok ()
    kickoff := fun _ _ _ => Except.ok "billing text" }

/-- The relational store behind utils/database.py for the plan pipeline:
the three tables the SQL literals of service_agents.py name, plus the
table-name listing `get_tables` returns. -/
structure Db where
  tables : List String
  service_plans : List Row
  customers : List Row
  customer_usage : List Row

/-- utils/database.py `get_tables` over the store model. -/
def db_get_tables (db : Db) : List String := db.tables

/-- Meaning of `SELECT * FROM service_plans` (service_agents.py line 33). -/
def sql_all_plans (db : Db) : List Row := db.service_plans

/-- Meaning of `SELECT * FROM customers WHERE email = :email LIMIT 1`
(service_agents.py lines 39-42). -/
def sql_customer_by_email (db : Db) (email : String) : List Row :=
  (db.customers.filter (fun r => rowGet r "email" = email)).take 1

/-- The ordering key of the usage query: the `billing_period_end` cell
(dates in ISO text, so SQLite text order is date order). -/
def rowKey (r : Row) : String := rowGet r "billing_period_end"

/-- A row of maximal `billing_period_end` (the head of an
`ORDER BY billing_period_end DESC` result; earlier row wins ties). -/
def maxByPeriodEnd : List Row → Option Row
  | [] => none
  | r :: rs =>
      match maxByPeriodEnd rs with
      | none => some r
      | some m => if rowKey r < rowKey m then some m else some r

/-- Meaning of `SELECT * FROM customer_usage WHERE customer_id = :cid
ORDER BY billing_period_end DESC LIMIT 1` (service_agents.py lines 59-67). -/
def sql_latest_usage (db : Db) (cid : String) : List Row :=
  match maxByPeriodEnd
      (db.customer_usage.filter (fun r => rowGet r "customer_id" = cid)) with
  | none => []
  | some r => [r]

/-- The `profile` dict `_load_customer_profile` returns. -/
structure CustomerProfile where
  customer : Option Row
  current_plan : Option Row
  usage : Option Row
  plans : Option (List Row)

/-- Python truthiness of `profile["plans"]`: `None` and `[]` are falsy. -/
def plansTruthy : Option (List Row) → Bool
  | none => false
  | some l => !l.isEmpty

/-- agents/service_agents.py `_load_customer_profile`, with the SQL
literals interpreted by the semantic query functions above. -/
def _load_customer_profile (db : Db) (customer_email : Option String) :
    CustomerProfile :=
  let plans : Option (List Row) :=
    if "service_plans" ∈ db_get_tables db then some (sql_all_plans db)
    else none
  if truthyOpt customer_email then
    match sql_customer_by_email db (customer_email.getD "") with
    | [] => { customer := none, current_plan := none, usage := none,
              plans := plans }
    | customer :: _ =>
        let plan_id := rowGet customer "service_plan_id"
        let current_plan : Option Row :=
          if truthyOpt (pyGet customer "service_plan_id")
              && plansTruthy plans then
            (plans.getD []).find? (fun p => rowGet p "plan_id" = plan_id)
          else none
        let usage : Option Row :=
          if "customer_usage" ∈ db_get_tables db then
            match sql_latest_usage db (rowGet customer "customer_id") with
            | [] => none
            | u :: _ => some u
          else none
        { customer := some customer, current_plan := current_plan,
          usage := usage, plans := plans }
  else
    { customer := none, current_plan := none, usage := none, plans := plans }

/-- agents/service_agents.py `_format_plan`. -/
def _format_plan (p : Row) : String :=
  let data :=
    if cellTruthy (rowGet p "unlimited_data") then "Unlimited"
    else rowGet p "data_limit_gb" ++ "GB"
  let voice :=
    if cellTruthy (rowGet p "unlimited_voice") then "Unlimited"
    else rowGet p "voice_minutes" ++ " min"
  let sms :=
    if cellTruthy (rowGet p "unlimited_sms") then "Unlimited"
    else rowGet p "sms_count" ++ " SMS"
  "- " ++ rowGet p "name" ++ " (" ++ rowGet p "plan_id" ++ "): ₹" ++
    rowGet p "monthly_cost" ++ " / month | " ++ data ++ " | " ++ voice ++
    " | " ++ sms

/-- agents/service_agents.py lines 126: the plan-catalog blob. -/
def plan_text_of (profile : CustomerProfile) : String :=
  let plans := profile.plans.getD []
  if plans.isEmpty then "(No plans)"
  else String.intercalate "\n" (plans.map _format_plan)

/-- agents/service_agents.py lines 129-137: the customer-profile blob. -/
def customer_text_of (profile : CustomerProfile) : String :=
  match profile.customer, profile.current_plan with
  | some c, some cp =>
      "Customer ID: " ++ rowGet c "customer_id" ++ "\n" ++
      "Name: " ++ rowGet c "name" ++ "\n" ++
      "Current Plan: " ++ rowGet cp "name" ++ " (" ++
        rowGet cp "plan_id" ++ ")\n" ++
      "Monthly Cost: ₹" ++ rowGet cp "monthly_cost" ++ "\n"
  | _, _ => "No customer profile available.\n"

/-- agents/service_agents.py lines 140-150: the usage blob. -/
def usage_text_of (profile : CustomerProfile) : String :=
  match profile.usage with
  | some u =>
      "Billing Period: " ++ rowGet u "billing_period_start" ++ " → " ++
        rowGet u "billing_period_end" ++ "\n" ++
      "Last Billing Period Usage:\n" ++
      "- Data: " ++ rowGet u "data_used_gb" ++ " GB\n" ++
      "- Voice: " ++ rowGet u "voice_minutes_used" ++ " min\n" ++
      "- SMS: " ++ rowGet u "sms_count_used" ++ "\n" ++
      "- Total Bill Amount: ₹" ++ rowGet u "total_bill_amount" ++ "\n"
  | none => "No usage data available.\n"

/-- agents/service_agents.py lines 155-199: the fixed system prompt of the
plan-recommendation call. -/
def plan_system_message : String :=
  "\nYou are a Telecom Plan Optimization Expert for an Indian telecom " ++
  "operator.\n\nYou must recommend 1–3 plans based on:\n" ++
  "1. User\x27s request in natural language (e.g., cheaper plan, more " ++
  "data, family plan, add-on packs).\n" ++
  "2. Current plan vs actual usage (data, voice, SMS).\n" ++
  "3. Cost savings or upgrade benefits.\n" ++
  "4. All available plans from `service_plans`.\n" ++
  "5. Unlimited data/voice/SMS rules.\n" ++
  "6. Whether the current plan is already ideal.\n\n" ++
  "Also consider add-on packs or upgrades if the user is exceeding " ++
  "data/voice/SMS limits.\n" ++
  "If the question is specifically about \"add-on packs\", clearly list " ++
  "suitable add-on options\nbased on their current plan and usage, and " ++
  "explain when they should upgrade the base plan instead.\n\n" ++
  "Respond with:\n- A short summary\n" ++
  "- A ranked list of recommended plans and/or add-on packs\n" ++
  "- Reasoning in bullet points\n"

/-- agents/service_agents.py lines 182-196 with `format_messages` applied:
the user message carrying the four blobs. -/
def plan_user_message (query customer_profile usage plans : String) :
    String :=
  "\nUser Query:\n" ++ query ++ "\n\nCustomer:\n" ++ customer_profile ++
  "\n\nUsage:\n" ++ usage ++ "\n\nAvailable Plans:\n" ++ plans ++
  "\n\nProvide the best personalized plan/add-on recommendations.\n"

/-- agents/service_agents.py `recommend_personalized_plan` over the store
model, parametric in the chat model (`llm.invoke` on the two formatted
messages; `_build_llm` configuration failures are the business of the
node-boundary catch, claim C2). -/
def recommend_personalized_plan (db : Db)
    (llm : List (String × String) → String)
    (customer_email : Option String) (user_query : String) : String :=
  let profile := _load_customer_profile db customer_email
  llm [("system", plan_system_message),
       ("user", plan_user_message user_query (customer_text_of profile)
          (usage_text_of profile) (plan_text_of profile))]

/-- A logged-in session with one transcript entry (for evaluating the
session operations). -/
def wSession : SessionState :=
  { authenticated := true
    user_type := some "Customer"
    email := some "a@b.c"
    chat_history := [("user", "hi")] }

/-- A concrete chat model for evaluating the plan pipeline. -/
def wLlm : List (String × String) → String :=
  fun ms => String.intercalate "\n--\n" (ms.map (fun m => m.2))

/-- A concrete customer row for evaluating the plan pipeline. -/
def wCrow : Row :=
  [("customer_id", "C1"), ("name", "Asha"), ("email", "a@b.c"),
   ("service_plan_id", "P1")]

/-- A concrete plan row for evaluating the plan pipeline. -/
def wPlan : Row :=
  [("plan_id", "P1"), ("name", "Basic"), ("monthly_cost", "499"),
   ("unlimited_data", "0"), ("data_limit_gb", "2"),
   ("unlimited_voice", "1"), ("voice_minutes", ""),
   ("unlimited_sms", "0"), ("sms_count", "100")]

/-- A concrete store for evaluating the plan pipeline: one plan, one
customer on it, two usage rows with distinct period ends. -/
def witnessDb : Db :=
  { tables := ["customer_usage", "customers", "service_plans"]
    service_plans := [wPlan]
    customers := [wCrow]
    customer_usage :=
      [[("customer_id", "C1"), ("billing_period_start", "2024-01-01"),
        ("billing_period_end", "2024-01-31"), ("data_used_gb", "1.5"),
        ("voice_minutes_used", "120"), ("sms_count_used", "10"),
        ("total_bill_amount", "499")],
       [("customer_id", "C1"), ("billing_period_start", "2024-02-01"),
        ("billing_period_end", "2024-02-29"), ("data_used_gb", "1.9"),
        ("voice_minutes_used", "80"), ("sms_count_used", "7"),
        ("total_bill_amount", "499")]] }

/-- C1: `classify_query` lowercases the query, tests the four keyword sets
in the priority order billing, network, plan, how-to, and returns the label
of the first set with a matching keyword, `fallback` when none matches
(in particular for the empty query); it is total and deterministic and its
result is always one of the five labels. -/
theorem claim_C1 (st : TelecomAssistantState) :
    (classify_query st).classification = spec_classify st.query
    ∧ (classify_query st).classification ∈ intent_labels
    ∧ (st.query = "" → (classify_query st).classification = "fallback") := by
  refine ⟨rfl, ?_, ?_⟩
  · show (if _ then _ else _) ∈ _
    split_ifs <;> simp [intent_labels]
  · intro h
    show (if _ then _ else _) = _
    rw [h]
    decide

/-- C1 witness: concrete evaluations of the classifier through `claim_C1`. -/
theorem claim_C1_witness :
    (classify_query (initState "" none [])).classification = "fallback" :=
  (claim_C1 (initState "" none [])).2.2 rfl

/-- C4: `route_query` is a pure total deterministic function of the
classification label alone; it maps the five intent labels to the five
pairwise-distinct handler identifiers, and every output is one of the five
handler names. -/
theorem claim_C4 :
    (∀ s₁ s₂ : TelecomAssistantState, s₁.classification = s₂.classification →
      route_query s₁ = route_query s₂)
    ∧ (intent_labels.map
        (fun c => route_query (withClassification (initState "" none []) c)))
        = handler_names
    ∧ (intent_labels.map
        (fun c => route_query (withClassification (initState "" none []) c))).Nodup
    ∧ (∀ st : TelecomAssistantState, route_query st ∈ handler_names) := by
  refine ⟨?_, by decide, by decide, ?_⟩
  · intro s₁ s₂ h
    show (if _ then _ else _) = (if _ then _ else _)
    rw [show s₁.classification = s₂.classification from h]
  · intro st
    show (if _ then _ else _) ∈ _
    split_ifs <;> simp [handler_names]

/-- C4 witness: the determinism clause of `claim_C4` applied to two
concrete states sharing a classification. -/
theorem claim_C4_witness :
    route_query (withClassification (initState "a" none []) "billing_account")
      = route_query (withClassification (initState "b" (some "x@y.z") []) "billing_account") :=
  claim_C4.1 _ _ rfl

/-- C5: applied to an empty mapping the aggregator returns the fixed
"something went wrong" message; applied to any non-empty mapping it returns
the first-inserted value; the mapping being empty or not are the only two
cases. -/
theorem claim_C5 (st : TelecomAssistantState) :
    (st.intermediate_responses = [] →
      (formulate_response st).final_response =
        "Something went wrong while generating a response.")
    ∧ (∀ k v rest, st.intermediate_responses = (k, v) :: rest →
      (formulate_response st).final_response = v) := by
  constructor
  · intro h
    simp [formulate_response, h]
  · intro k v rest h
    simp [formulate_response, h]

/-- C5 witness: `aggregate({"x": "A"}) = "A"` and `aggregate({})` is the
fixed message, through `claim_C5`. -/
theorem claim_C5_witness :
    (formulate_response { initState "" none [] with
        intermediate_responses := [("x", "A")] }).final_response = "A"
    ∧ (formulate_response (initState "" none [])).final_response =
        "Something went wrong while generating a response." :=
  ⟨(claim_C5 _).2 "x" "A" [] rfl, (claim_C5 _).1 rfl⟩

/-- Helper: a successful run of whatever node the router dispatched to
leaves exactly one entry in `intermediate_responses`. -/
theorem dispatch_ok_length (ag : Agents) (node : String)
    (st st' : TelecomAssistantState)
    (h : dispatch ag node st = Except.ok st') :
    st'.intermediate_responses.length = 1 := by
  unfold dispatch at h
  split_ifs at h
  · simp only [crew_ai_node, Except.ok.injEq] at h
    subst h; rfl
  · simp only [autogen_node, Except.ok.injEq] at h
    subst h; rfl
  · simp only [langchain_node, Except.ok.injEq] at h
    subst h; rfl
  · simp only [llamaindex_node, bind, Except.bind] at h
    cases hk : ag.answer_knowledge_query st.query (pyGet st.customer_info "email") with
    | error e => rw [hk] at h; cases h
    | ok a =>
        rw [hk] at h
        simp only [Except.ok.injEq] at h
        subst h; rfl
  · simp only [fallback_handler, Except.ok.injEq] at h
    subst h; rfl

/-- C3: once the router has selected a handler for the classified request
and that handler node has run (returned a state), the
intermediate-responses mapping of the resulting state holds at most one
key. -/
theorem claim_C3 (ag : Agents) (st st' : TelecomAssistantState)
    (h : dispatch ag (route_query (classify_query st)) (classify_query st)
          = Except.ok st') :
    st'.intermediate_responses.length ≤ 1 :=
  Nat.le_of_eq (dispatch_ok_length ag _ _ st' h)

/-- C3 witness: a concrete routed-and-handled request, through `claim_C3`. -/
theorem claim_C3_witness :
    (fallback_handler (classify_query
        (initState "hello" none []))).intermediate_responses.length ≤ 1 :=
  claim_C3 trivAgents (initState "hello" none []) _ rfl

/-- Helper: a fallback-classified request runs the fallback handler and
aggregates its fixed text, with no external call. -/
theorem run_graph_fallback (ag : Agents) (s : TelecomAssistantState)
    (h : (classify_query s).classification = "fallback") :
    run_graph ag s =
      Except.ok (formulate_response (fallback_handler (classify_query s))) := by
  have hr : route_query (classify_query s) = "fallback_handler" := by
    unfold route_query
    rw [h]
    rfl
  unfold run_graph
  simp only [hr]
  rfl

/-- C10: every fallback-classified request produces the one fixed help
text, independently of the query, the customer identity, the chat history
and all external pipelines (neither database nor model is consulted), so
any two fallback-classified requests yield identical final responses. -/
theorem claim_C10 (ag₁ ag₂ : Agents) (s₁ s₂ : TelecomAssistantState)
    (h₁ : (classify_query s₁).classification = "fallback")
    (h₂ : (classify_query s₂).classification = "fallback") :
    ∃ r₁ r₂, run_graph ag₁ s₁ = Except.ok r₁
      ∧ run_graph ag₂ s₂ = Except.ok r₂
      ∧ r₁.final_response = fallback_text
      ∧ r₂.final_response = fallback_text := by
  exact ⟨_, _, run_graph_fallback ag₁ s₁ h₁, run_graph_fallback ag₂ s₂ h₂,
    rfl, rfl⟩

/-- C10 witness: two fallback-classified requests with different queries,
identities, histories and agent pipelines, through `claim_C10`. -/
theorem claim_C10_witness :
    ∃ r₁ r₂,
      run_graph trivAgents
        (initState "zebra stripes" (some "a@b.c") [("user", "hi")])
        = Except.ok r₁
      ∧ run_graph raisingAgents (initState "" none []) = Except.ok r₂
      ∧ r₁.final_response = fallback_text
      ∧ r₂.final_response = fallback_text :=
  claim_C10 trivAgents raisingAgents _ _ rfl rfl

/-- C2 counterexample: with the detailed knowledge pipeline, a request in
which `index.as_query_engine` raises makes the exception cross the
`llamaindex_node` boundary — the node propagates the error instead of
returning a diagnostic text. -/
theorem claim_C2_counterexample :
    llamaindex_node (knowledgeAgents badKnowExt)
      (initState "how do i configure my apn" (some "a@b.c") []) =
    Except.error ⟨"RuntimeError", "query engine construction failed"⟩ := rfl

/-- C2 (amended): the billing, network and plan-recommendation nodes catch
every exception from their pipelines and always return a state with a
diagnostic text on failure; the knowledge pipeline catches exceptions from
index construction and from the query call, and the only exceptions that
escape `llamaindex_node` are those raised by query-engine construction;
any exception escaping a node is caught at the presentation layer and
rendered as the marker-prefixed error text. -/
theorem claim_C2 :
    (∀ ag st, (crew_ai_node ag st).isOk = true
      ∧ (autogen_node ag st).isOk = true
      ∧ (langchain_node ag st).isOk = true)
    ∧ (∀ ag st e,
        ag.process_billing_query
            (orTruthy (pyGet st.customer_info "email")
              (pyGet st.customer_info "id")) st.query = Except.error e →
        crew_ai_node ag st = Except.ok { st with
          intermediate_responses := [("crew_ai",
            "Sorry, I ran into a problem while analyzing your billing question.\n\n" ++
            "Technical details: " ++ e.typeName ++ ": " ++ e.message)] })
    ∧ (∀ ag st e,
        ag.process_network_query st.query
            (orTruthy (pyGet st.customer_info "email")
              (pyGet st.customer_info "id")) = Except.error e →
        autogen_node ag st = Except.ok { st with
          intermediate_responses := [("autogen",
            "Sorry, I ran into a problem while diagnosing your network issue.\n\n" ++
            "Technical details: " ++ e.typeName ++ ": " ++ e.message)] })
    ∧ (∀ ag st e,
        ag.recommend_personalized_plan (pyGet st.customer_info "email")
            st.query = Except.error e →
        langchain_node ag st = Except.ok { st with
          intermediate_responses := [("langchain",
            "Sorry, I had trouble generating a plan recommendation.\n\n" ++
            "Technical details: " ++ e.typeName ++ ": " ++ e.message)] })
    ∧ (∀ k i eng q em, k.getIndex = Except.ok i →
        k.asQueryEngine i 3 = Except.ok eng →
        (answer_knowledge_queryE k q em).isOk = true)
    ∧ (∀ k e q em, k.getIndex = Except.error e →
        answer_knowledge_queryE k q em =
          Except.ok ("Knowledge assistant is not configured correctly.\n\n" ++
            "Technical details: " ++ e.typeName ++ ": " ++ e.message))
    ∧ (∀ k q em err, answer_knowledge_queryE k q em = Except.error err →
        ∃ i, k.getIndex = Except.ok i
          ∧ k.asQueryEngine i 3 = Except.error err)
    ∧ (∀ ag s q err, run_graph ag (ui_request_state s q) = Except.error err →
        run_query_through_graph ag s q =
          "❌ Error while processing your request (possible DB/agent issue): "
          ++ err.message) := by
  refine ⟨?_, ?_, ?_, ?_, ?_, ?_, ?_, ?_⟩
  · intro ag st
    exact ⟨rfl, rfl, rfl⟩
  · intro ag st e h
    simp only [crew_ai_node, h]
  · intro ag st e h
    simp only [autogen_node, h]
  · intro ag st e h
    simp only [langchain_node, h]
  · intro k i eng q em h1 h2
    unfold answer_knowledge_queryE
    rw [h1]
    simp only [bind, Except.bind]
    rw [h2]
    dsimp only
    cases hq : k.queryCall eng (know_full_question q em) <;> rfl
  · intro k e q em h
    unfold answer_knowledge_queryE
    rw [h]
  · intro k q em err h
    unfold answer_knowledge_queryE at h
    cases hg : k.getIndex with
    | error e => rw [hg] at h; cases h
    | ok i =>
        rw [hg] at h
        simp only [bind, Except.bind] at h
        cases ha : k.asQueryEngine i 3 with
        | error e2 =>
            rw [ha] at h
            dsimp only at h
            cases h
            exact ⟨i, rfl, ha⟩
        | ok eng =>
            rw [ha] at h
            dsimp only at h
            cases hq : k.queryCall eng (know_full_question q em) <;>
              rw [hq] at h <;> cases h
  · intro ag s q err h
    unfold run_query_through_graph
    rw [h]

/-- C2 witness: the amended clauses of `claim_C2` instantiated at concrete
pipelines and requests. -/
theorem claim_C2_witness :
    (crew_ai_node raisingAgents (initState "my bill" none [])).isOk = true
    ∧ crew_ai_node raisingAgents (initState "my bill" none [])
        = Except.ok { initState "my bill" none [] with
            intermediate_responses := [("crew_ai",
              "Sorry, I ran into a problem while analyzing your billing question.\n\n" ++
              "Technical details: " ++ "RuntimeError" ++ ": " ++ "a")] }
    ∧ (answer_knowledge_queryE goodKnowExt "q" none).isOk = true
    ∧ answer_knowledge_queryE
        { goodKnowExt with getIndex := Except.error ⟨"RuntimeError", "no key"⟩ }
        "q" none
        = Except.ok ("Knowledge assistant is not configured correctly.\n\n" ++
            "Technical details: " ++ "RuntimeError" ++ ": " ++ "no key")
    ∧ (∃ i, badKnowExt.getIndex = Except.ok i
        ∧ badKnowExt.asQueryEngine i 3 =
            Except.error ⟨"RuntimeError", "query engine construction failed"⟩)
    ∧ run_query_through_graph (knowledgeAgents badKnowExt) init_session
        "what is volte"
        = "❌ Error while processing your request (possible DB/agent issue): "
          ++ "query engine construction failed" :=
  ⟨(claim_C2.1 raisingAgents (initState "my bill" none [])).1,
   claim_C2.2.1 raisingAgents (initState "my bill" none [])
     ⟨"RuntimeError", "a"⟩ rfl,
   claim_C2.2.2.2.2.1 goodKnowExt 0 1 "q" none rfl rfl,
   claim_C2.2.2.2.2.2.1 _ ⟨"RuntimeError", "no key"⟩ "q" none rfl,
   claim_C2.2.2.2.2.2.2.1 badKnowExt "what is volte" none
     ⟨"RuntimeError", "query engine construction failed"⟩ rfl,
   claim_C2.2.2.2.2.2.2.2 (knowledgeAgents badKnowExt) init_session
     "what is volte"
     ⟨"RuntimeError", "query engine construction failed"⟩ rfl⟩

/-- Helper: every node dispatched by the router preserves the chat
transcript carried in the request state. -/
theorem dispatch_ok_chat (ag : Agents) (node : String)
    (st st' : TelecomAssistantState)
    (h : dispatch ag node st = Except.ok st') :
    st'.chat_history = st.chat_history := by
  unfold dispatch at h
  split_ifs at h
  · simp only [crew_ai_node, Except.ok.injEq] at h
    subst h; rfl
  · simp only [autogen_node, Except.ok.injEq] at h
    subst h; rfl
  · simp only [langchain_node, Except.ok.injEq] at h
    subst h; rfl
  · simp only [llamaindex_node, bind, Except.bind] at h
    cases hk : ag.answer_knowledge_query st.query (pyGet st.customer_info "email") with
    | error e => rw [hk] at h; cases h
    | ok a =>
        rw [hk] at h
        simp only [Except.ok.injEq] at h
        subst h; rfl
  · simp only [fallback_handler, Except.ok.injEq] at h
    subst h; rfl

/-- Helper: a full graph run leaves the chat transcript of the request
state untouched. -/
theorem run_graph_chat (ag : Agents) (st st' : TelecomAssistantState)
    (h : run_graph ag st = Except.ok st') :
    st'.chat_history = st.chat_history := by
  unfold run_graph at h
  simp only [bind, Except.bind] at h
  cases hd : dispatch ag (route_query (classify_query st)) (classify_query st) with
  | error e => rw [hd] at h; cases h
  | ok st₂ =>
      rw [hd] at h
      dsimp only at h
      simp only [Except.ok.injEq] at h
      subst h
      calc (formulate_response st₂).chat_history
          = st₂.chat_history := rfl
        _ = (classify_query st).chat_history := dispatch_ok_chat ag _ _ _ hd
        _ = st.chat_history := rfl

/-- C9 counterexample: the Logout operation of the session clears the chat
transcript — the old transcript is not a prefix of the new one, so the
transcript is not only-ever-appended-to by every session operation. -/
theorem claim_C9_counterexample :
    (sidebar_logout wSession).chat_history = []
    ∧ ¬ ∃ t, (sidebar_logout wSession).chat_history
        = wSession.chat_history ++ t := by
  refine ⟨rfl, ?_⟩
  rintro ⟨t, ht⟩
  simp [sidebar_logout, wSession] at ht

/-- C9 (amended): the chat transcript outlives individual requests and is
only ever appended to by the chat turns; the login operation and every
graph run leave it unchanged; the logout operation, however, resets it to
the empty list. -/
theorem claim_C9 (s : SessionState) :
    (∀ ag p, (chat_turn ag s p).chat_history
        = s.chat_history ++
          [("user", p),
           ("assistant", run_query_through_graph ag
              { s with chat_history := s.chat_history ++ [("user", p)] } p)])
    ∧ (∀ e u, (sidebar_login_submit s e u).chat_history = s.chat_history)
    ∧ (∀ ag st st', run_graph ag st = Except.ok st' →
        st'.chat_history = st.chat_history)
    ∧ (sidebar_logout s).chat_history = [] := by
  refine ⟨?_, ?_, ?_, rfl⟩
  · intro ag p
    simp [chat_turn]
  · intro e u
    unfold sidebar_login_submit
    split_ifs <;> rfl
  · intro ag st st' h
    exact run_graph_chat ag st st' h

/-- C9 witness: the amended clauses of `claim_C9` at a concrete session,
query and graph run. -/
theorem claim_C9_witness :
    (chat_turn trivAgents init_session "hi").chat_history
      = init_session.chat_history ++
        [("user", "hi"),
         ("assistant", run_query_through_graph trivAgents
            { init_session with
              chat_history := init_session.chat_history ++ [("user", "hi")] }
            "hi")]
    ∧ (sidebar_login_submit init_session "x@y.z" "Customer").chat_history
        = init_session.chat_history
    ∧ (formulate_response (fallback_handler (classify_query
        (initState "ping" none [])))).chat_history
        = (initState "ping" none []).chat_history
    ∧ (sidebar_logout init_session).chat_history = [] :=
  ⟨(claim_C9 init_session).1 trivAgents "hi",
   (claim_C9 init_session).2.1 "x@y.z" "Customer",
   (claim_C9 init_session).2.2.1 trivAgents (initState "ping" none []) _ rfl,
   (claim_C9 init_session).2.2.2⟩

/-- C8: on success the network handler issues exactly two chained chat
calls in control-flow order — the diagnostic pass first, then the rewrite
pass whose user message embeds the diagnostic pass's output — and returns
the internal-diagnostics section followed by the final-explanation section
under labeled headings in that order. -/
theorem claim_C8 (n : NetExt) (q : String) (cid : Option String)
    (d r : String)
    (hb : n.buildClient = Except.ok ())
    (hd : n.chatCreate n.modelName (network_diag_messages q cid) 2
            = Except.ok d)
    (hr : n.chatCreate n.modelName (network_resolution_messages d) 4
            = Except.ok r) :
    process_network_queryE n q cid =
      Except.ok ("### Network Diagnostics (Internal)\n" ++ d ++ "\n\n" ++
        "### Final Explanation\n" ++ r)
    ∧ network_call_trace n q cid =
        [network_diag_messages q cid, network_resolution_messages d]
    ∧ network_resolution_messages d =
        [("system", network_resolution_system_prompt),
         ("user",
          "Here is the technical diagnostics summary from the engineering " ++
          "system:\n\n" ++ d ++ "\n\n" ++
          "Convert this into a helpful customer-facing explanation with steps.")]
    := by
  refine ⟨?_, ?_, rfl⟩
  · unfold process_network_queryE _diagnostics_agentE _resolution_agentE
    simp only [bind, Except.bind, pure, Except.pure, hb, hd, hr]
  · unfold network_call_trace
    rw [hb, hd]

/-- C8 witness: the two chained calls and the two labeled sections at a
concrete network environment, through `claim_C8`. -/
theorem claim_C8_witness :
    process_network_queryE okNetExt "My internet is slow" none =
      Except.ok ("### Network Diagnostics (Internal)\n" ++ "diag out" ++
        "\n\n" ++ "### Final Explanation\n" ++ "reso out")
    ∧ network_call_trace okNetExt "My internet is slow" none =
        [network_diag_messages "My internet is slow" none,
         network_resolution_messages "diag out"]
    ∧ network_resolution_messages "diag out" =
        [("system", network_resolution_system_prompt),
         ("user",
          "Here is the technical diagnostics summary from the engineering " ++
          "system:\n\n" ++ "diag out" ++ "\n\n" ++
          "Convert this into a helpful customer-facing explanation with steps.")]
    :=
  claim_C8 okNetExt "My internet is slow" none "diag out" "reso out"
    rfl rfl rfl

/-- Helper: when the candidate-column loop returns `none`, every candidate
either raised or matched no rows. -/
theorem tryColumns_none_spec (b : BillExt) (table cid : String) :
    ∀ cols : List String, tryColumns b table cid cols = none →
      ∀ c ∈ cols,
        queryMisses (b.runQuery (billing_filter_sql table c) [("val", cid)]) := by
  intro cols
  induction cols with
  | nil =>
      intro _ c hc
      cases hc
  | cons col rest ih =>
      intro h c hc
      unfold tryColumns at h
      cases hq : b.runQuery (billing_filter_sql table col) [("val", cid)] with
      | error e =>
          rw [hq] at h
          rcases List.mem_cons.mp hc with rfl | hc'
          · exact Or.inr ⟨e, hq⟩
          · exact ih h c hc'
      | ok rows =>
          rw [hq] at h
          by_cases hrows : rows.isEmpty
          · simp only [if_pos hrows] at h
            rcases List.mem_cons.mp hc with rfl | hc'
            · left
              rw [hq, List.isEmpty_iff.mp hrows]
            · exact ih h c hc'
          · simp only [if_neg hrows] at h
            cases h

/-- Helper: when the candidate-column loop returns a column and rows, that
column is the first candidate whose query returned rows: every earlier
candidate raised or matched nothing, and the returned rows are non-empty. -/
theorem tryColumns_some_spec (b : BillExt) (table cid : String) :
    ∀ cols col rows, tryColumns b table cid cols = some (col, rows) →
      ∃ l₁ l₂, cols = l₁ ++ col :: l₂
        ∧ (∀ c ∈ l₁,
            queryMisses (b.runQuery (billing_filter_sql table c) [("val", cid)]))
        ∧ b.runQuery (billing_filter_sql table col) [("val", cid)]
            = Except.ok rows
        ∧ rows ≠ [] := by
  intro cols
  induction cols with
  | nil =>
      intro col rows h
      unfold tryColumns at h
      cases h
  | cons c0 rest ih =>
      intro col rows h
      unfold tryColumns at h
      cases hq : b.runQuery (billing_filter_sql table c0) [("val", cid)] with
      | error e =>
          rw [hq] at h
          obtain ⟨l₁, l₂, h1, h2, h3, h4⟩ := ih col rows h
          refine ⟨c0 :: l₁, l₂, by rw [h1]; rfl, ?_, h3, h4⟩
          intro c hc
          rcases List.mem_cons.mp hc with rfl | hc'
          · exact Or.inr ⟨e, hq⟩
          · exact h2 c hc'
      | ok rws =>
          rw [hq] at h
          by_cases hrows : rws.isEmpty
          · simp only [if_pos hrows] at h
            obtain ⟨l₁, l₂, h1, h2, h3, h4⟩ := ih col rows h
            refine ⟨c0 :: l₁, l₂, by rw [h1]; rfl, ?_, h3, h4⟩
            intro c hc
            rcases List.mem_cons.mp hc with rfl | hc'
            · left
              rw [hq, List.isEmpty_iff.mp hrows]
            · exact h2 c hc'
          · simp only [if_neg hrows, Option.some.injEq, Prod.mk.injEq] at h
            obtain ⟨rfl, rfl⟩ := h
            exact ⟨[], rest, rfl, by simp, hq,
              fun he => hrows (by rw [he]; rfl)⟩

/-- Helper: a table whose candidate-column loop found nothing renders as
its unfiltered sample section. -/
theorem billing_table_lines_sample (b : BillExt) (table cid : String)
    (hcid : cid ≠ "")
    (h : tryColumns b table cid candidate_columns = none) :
    billing_table_lines b (some cid) table =
      ("\nTable: " ++ table) :: billing_sample_lines b table := by
  have ht : truthyOpt (some cid) = true := by
    unfold truthyOpt
    simp [hcid]
  unfold billing_table_lines
  rw [ht]
  simp only [if_true, Option.getD, h]

/-- Helper: congruence for `flatMap` over pointwise-equal sections. -/
theorem listFlatMapCongr {α β : Type} (f g : α → List β) :
    ∀ l : List α, (∀ a ∈ l, f a = g a) → l.flatMap f = l.flatMap g := by
  intro l
  induction l with
  | nil => intro _; rfl
  | cons a l ih =>
      intro h
      simp only [List.flatMap_cons]
      rw [h a (by simp), ih (fun x hx => h x (by simp [hx]))]

/-- C6: the snapshot builder never raises (all query errors are absorbed);
with a customer identifier, for each discovered table it tries the fixed
candidate identifier columns in sequence and stops at the first
table/column combination that yields matching rows; a table with no
matching combination — in particular every table when no combination
across all tables matches, or when there is no identifier at all — falls
back to the unfiltered first-rows sample of that table. -/
theorem claim_C6 :
    (∀ b cid, (_build_db_snapshotE b cid).isOk = true)
    ∧ (∀ b table cid col rows, cid ≠ "" →
        tryColumns b table cid candidate_columns = some (col, rows) →
        ∃ l₁ l₂, candidate_columns = l₁ ++ col :: l₂
          ∧ (∀ c ∈ l₁, queryMisses
              (b.runQuery (billing_filter_sql table c) [("val", cid)]))
          ∧ b.runQuery (billing_filter_sql table col) [("val", cid)]
              = Except.ok rows
          ∧ rows ≠ []
          ∧ billing_table_lines b (some cid) table =
              ("\nTable: " ++ table) ::
                ["  Rows for " ++ col ++ " = " ++ pyReprStr cid ++ ":",
                 _format_rows rows 5])
    ∧ (∀ b table cid, cid ≠ "" →
        tryColumns b table cid candidate_columns = none →
        (∀ c ∈ candidate_columns, queryMisses
            (b.runQuery (billing_filter_sql table c) [("val", cid)]))
        ∧ billing_table_lines b (some cid) table =
            ("\nTable: " ++ table) :: billing_sample_lines b table)
    ∧ (∀ b table, billing_table_lines b none table =
        ("\nTable: " ++ table) :: billing_sample_lines b table)
    ∧ (∀ b cid tables, cid ≠ "" → b.getTables = Except.ok tables →
        tables ≠ [] →
        (∀ t ∈ tables, tryColumns b t cid candidate_columns = none) →
        _build_db_snapshotE b (some cid) =
          Except.ok (String.intercalate "\n"
            (["Database URI: " ++ b.dbUri, "Discovered tables:"] ++
              tables.flatMap (fun t =>
                ("\nTable: " ++ t) :: billing_sample_lines b t)))) := by
  refine ⟨?_, ?_, ?_, ?_, ?_⟩
  · intro b cid
    unfold _build_db_snapshotE
    cases hg : b.getTables with
    | error e => rfl
    | ok tables =>
        dsimp only
        split_ifs <;> rfl
  · intro b table cid col rows hcid h
    obtain ⟨l₁, l₂, h1, h2, h3, h4⟩ := tryColumns_some_spec b table cid _ col rows h
    refine ⟨l₁, l₂, h1, h2, h3, h4, ?_⟩
    have ht : truthyOpt (some cid) = true := by
      unfold truthyOpt
      simp [hcid]
    unfold billing_table_lines
    rw [ht]
    simp only [if_true, Option.getD, h]
  · intro b table cid hcid h
    exact ⟨tryColumns_none_spec b table cid _ h,
      billing_table_lines_sample b table cid hcid h⟩
  · intro b table
    rfl
  · intro b cid tables hcid hg hne hall
    unfold _build_db_snapshotE
    rw [hg]
    dsimp only
    rw [if_neg (by simpa [List.isEmpty_iff] using hne)]
    rw [listFlatMapCongr _ _ tables
      (fun t ht => billing_table_lines_sample b t cid hcid (hall t ht))]

/-- C6 witness: the concrete environment `witnessBillExt`, in which the
first candidate raises, the second matches nothing and the third matches a
row, through `claim_C6`. -/
theorem claim_C6_witness :
    (_build_db_snapshotE witnessBillExt (some "a@b.c")).isOk = true
    ∧ (∃ l₁ l₂, candidate_columns = l₁ ++ "email" :: l₂
        ∧ (∀ c ∈ l₁, queryMisses
            (witnessBillExt.runQuery (billing_filter_sql "customers" c)
              [("val", "a@b.c")]))
        ∧ witnessBillExt.runQuery (billing_filter_sql "customers" "email")
            [("val", "a@b.c")]
            = Except.ok [[("customer_id", "C1"), ("email", "a@b.c")]]
        ∧ [[("customer_id", "C1"), ("email", "a@b.c")]] ≠ ([] : List Row)
        ∧ billing_table_lines witnessBillExt (some "a@b.c") "customers" =
            ("\nTable: " ++ "customers") ::
              ["  Rows for " ++ "email" ++ " = " ++ pyReprStr "a@b.c" ++ ":",
               _format_rows [[("customer_id", "C1"), ("email", "a@b.c")]] 5])
    ∧ billing_table_lines witnessBillExt none "customers" =
        ("\nTable: " ++ "customers") ::
          billing_sample_lines witnessBillExt "customers" :=
  ⟨claim_C6.1 witnessBillExt (some "a@b.c"),
   claim_C6.2.1 witnessBillExt "customers" "a@b.c" "email" _
     (by decide) rfl,
   claim_C6.2.2.2.1 witnessBillExt "customers"⟩

/-- Helper: the descending-order head exists exactly for non-empty row
lists. -/
theorem maxByPeriodEnd_none : ∀ l : List Row, maxByPeriodEnd l = none → l = [] := by
  intro l h
  cases l with
  | nil => rfl
  | cons a l' =>
      unfold maxByPeriodEnd at h
      cases hm : maxByPeriodEnd l' with
      | none => rw [hm] at h; cases h
      | some m =>
          rw [hm] at h
          dsimp only at h
          split_ifs at h

/-- Helper: the descending-order head is a member of maximal key. -/
theorem maxByPeriodEnd_mem_max :
    ∀ (l : List Row) (m : Row), maxByPeriodEnd l = some m →
      m ∈ l ∧ ∀ r ∈ l, rowKey r ≤ rowKey m := by
  intro l
  induction l with
  | nil =>
      intro m h
      cases h
  | cons a l ih =>
      intro m h
      unfold maxByPeriodEnd at h
      cases hm : maxByPeriodEnd l with
      | none =>
          rw [hm] at h
          cases h
          refine ⟨List.mem_cons_self _ _, ?_⟩
          intro r hr
          rcases List.mem_cons.mp hr with rfl | hr'
          · exact le_refl _
          · rw [maxByPeriodEnd_none l hm] at hr'
            cases hr'
      | some mx =>
          rw [hm] at h
          dsimp only at h
          obtain ⟨hmem, hmax⟩ := ih mx hm
          by_cases hlt : rowKey a < rowKey mx
          · rw [if_pos hlt] at h
            cases h
            refine ⟨List.mem_cons_of_mem _ hmem, ?_⟩
            intro r hr
            rcases List.mem_cons.mp hr with rfl | hr'
            · exact le_of_lt hlt
            · exact hmax r hr'
          · rw [if_neg hlt] at h
            cases h
            refine ⟨List.mem_cons_self _ _, ?_⟩
            intro r hr
            rcases List.mem_cons.mp hr with rfl | hr'
            · exact le_refl _
            · exact le_trans (hmax r hr') (not_lt.mp hlt)

/-- C7: for a customer email present in the store (plus the two tables the
pipeline reads), the plan handler loads the customer row, resolves the
current plan by matching the customer's `service_plan_id` against the
`plan_id` of each entry of the full plan list, loads the single usage row
of maximal `billing_period_end` (the `ORDER BY billing_period_end DESC
LIMIT 1` head), and supplies the query, customer blob, usage blob and full
plan catalog into the one model call. -/
theorem claim_C7 (db : Db) (email : String) (crow : Row)
    (he : email ≠ "")
    (hp : "service_plans" ∈ db.tables)
    (hu : "customer_usage" ∈ db.tables)
    (hc : sql_customer_by_email db email = [crow])
    (hid : truthyOpt (pyGet crow "service_plan_id") = true)
    (hplans : db.service_plans ≠ []) :
    (_load_customer_profile db (some email)).customer = some crow
    ∧ (_load_customer_profile db (some email)).plans = some db.service_plans
    ∧ (_load_customer_profile db (some email)).current_plan
        = db.service_plans.find?
            (fun p => rowGet p "plan_id" = rowGet crow "service_plan_id")
    ∧ (db.customer_usage.filter
          (fun r => rowGet r "customer_id" = rowGet crow "customer_id") ≠ [] →
        ∃ u, (_load_customer_profile db (some email)).usage = some u
          ∧ u ∈ db.customer_usage
          ∧ rowGet u "customer_id" = rowGet crow "customer_id"
          ∧ ∀ r ∈ db.customer_usage,
              rowGet r "customer_id" = rowGet crow "customer_id" →
              rowKey r ≤ rowKey u)
    ∧ (∀ llm q, recommend_personalized_plan db llm (some email) q
        = llm [("system", plan_system_message),
               ("user", plan_user_message q
                  (customer_text_of (_load_customer_profile db (some email)))
                  (usage_text_of (_load_customer_profile db (some email)))
                  (plan_text_of (_load_customer_profile db (some email))))])
    ∧ (∀ cplan,
        (_load_customer_profile db (some email)).current_plan = some cplan →
        customer_text_of (_load_customer_profile db (some email))
          = "Customer ID: " ++ rowGet crow "customer_id" ++ "\n" ++
            "Name: " ++ rowGet crow "name" ++ "\n" ++
            "Current Plan: " ++ rowGet cplan "name" ++ " (" ++
              rowGet cplan "plan_id" ++ ")\n" ++
            "Monthly Cost: ₹" ++ rowGet cplan "monthly_cost" ++ "\n") := by
  have htr : truthyOpt (some email) = true := by
    unfold truthyOpt
    simp [he]
  have hpe : db.service_plans.isEmpty = false := by
    cases hsp : db.service_plans with
    | nil => exact absurd hsp hplans
    | cons a l => rfl
  have hprof : _load_customer_profile db (some email) =
      { customer := some crow
        current_plan := db.service_plans.find?
          (fun p => rowGet p "plan_id" = rowGet crow "service_plan_id")
        usage := match sql_latest_usage db (rowGet crow "customer_id") with
                 | [] => none
                 | u :: _ => some u
        plans := some db.service_plans } := by
    unfold _load_customer_profile
    rw [show db_get_tables db = db.tables from rfl, if_pos hp, htr,
      if_pos (rfl : true = true), Option.getD_some, hc]
    dsimp only
    rw [hid, sql_all_plans]
    simp only [plansTruthy, hpe, Bool.not_false, Bool.true_and,
      if_pos (rfl : true = true), if_pos hu]
    simp
  refine ⟨by rw [hprof], by rw [hprof], by rw [hprof], ?_, fun llm q => rfl, ?_⟩
  · intro hfilter
    obtain ⟨m, hM⟩ : ∃ m, maxByPeriodEnd (db.customer_usage.filter
        (fun r => rowGet r "customer_id" = rowGet crow "customer_id")) = some m := by
      cases hM : maxByPeriodEnd (db.customer_usage.filter
          (fun r => rowGet r "customer_id" = rowGet crow "customer_id")) with
      | none => exact absurd (maxByPeriodEnd_none _ hM) hfilter
      | some m => exact ⟨m, rfl⟩
    obtain ⟨hmem, hmax⟩ := maxByPeriodEnd_mem_max _ m hM
    obtain ⟨hmem', hpred⟩ := List.mem_filter.mp hmem
    refine ⟨m, ?_, hmem', of_decide_eq_true hpred, ?_⟩
    · rw [hprof]
      show (match sql_latest_usage db (rowGet crow "customer_id") with
            | [] => none
            | u :: _ => some u) = some m
      unfold sql_latest_usage
      rw [hM]
    · intro r hr hcidr
      exact hmax r (List.mem_filter.mpr ⟨hr, decide_eq_true hcidr⟩)
  · intro cplan hcp
    rw [hprof] at hcp
    dsimp only at hcp
    rw [hprof]
    unfold customer_text_of
    dsimp only
    rw [hcp]

/-- C7 witness: the concrete store `witnessDb` (customer `a@b.c` on plan
P1, two usage rows), through `claim_C7`. -/
theorem claim_C7_witness :
    (_load_customer_profile witnessDb (some "a@b.c")).customer = some wCrow
    ∧ (_load_customer_profile witnessDb (some "a@b.c")).plans
        = some witnessDb.service_plans
    ∧ recommend_personalized_plan witnessDb wLlm (some "a@b.c")
        "Recommend me a cheaper plan"
        = wLlm [("system", plan_system_message),
            ("user", plan_user_message "Recommend me a cheaper plan"
              (customer_text_of (_load_customer_profile witnessDb (some "a@b.c")))
              (usage_text_of (_load_customer_profile witnessDb (some "a@b.c")))
              (plan_text_of (_load_customer_profile witnessDb (some "a@b.c"))))]
    ∧ customer_text_of (_load_customer_profile witnessDb (some "a@b.c"))
        = "Customer ID: " ++ rowGet wCrow "customer_id" ++ "\n" ++
          "Name: " ++ rowGet wCrow "name" ++ "\n" ++
          "Current Plan: " ++ rowGet wPlan "name" ++ " (" ++
            rowGet wPlan "plan_id" ++ ")\n" ++
          "Monthly Cost: ₹" ++ rowGet wPlan "monthly_cost" ++ "\n" := by
  have h := claim_C7 witnessDb "a@b.c" wCrow (by decide) (by decide)
    (by decide) rfl rfl (by decide)
  exact ⟨h.1, h.2.1, h.2.2.2.2.1 wLlm "Recommend me a cheaper plan",
    h.2.2.2.2.2 wPlan rfl⟩
